import Mathlib

/-!
Shallow embedding of the training-run lifecycle orchestrator of the
`tinker-voice` repository, covering:

* the data model (`src/types/index.ts`): `TrainingStatus`, `TrainingConfig`,
  `TrainingProgress`, `TrainingRun`;
* the cost estimator (`src/lib/api.ts`, `calculateTrainingCost`);
* provider-status normalization (`src/lib/api.ts`, `mapAnyscaleStatus`);
* run (de)serialization (`src/hooks/useTraining.ts`, `serializeRun` /
  `deserializeRun`);
* the orchestrator state machine (`src/hooks/useTraining.ts`, the `useTraining`
  hook): `createRun`, `startRun`, `cancelRun`, `refreshRuns` and the polling
  `useEffect`, modelled as pure state-transition functions whose remote-call
  outcomes are explicit `Except` inputs, plus a step relation and reachability.

JavaScript numbers are modelled as `ℚ` (all arithmetic appearing in the claims
is exact decimal arithmetic), JS `Date` values as epoch-millisecond integers,
optional fields as `Option`, and thrown exceptions as `Except.error`.
-/

/-- `TrainingStatus` from `src/types/index.ts`:
`'pending' | 'running' | 'completed' | 'failed' | 'cancelled'`. -/
inductive TrainingStatus where
  | pending
  | running
  | completed
  | failed
  | cancelled
deriving DecidableEq, Repr

/-- Terminal statuses in the sense of the state machine: completed, failed, cancelled. -/
def TrainingStatus.isTerminal : TrainingStatus → Bool
  | .completed => true
  | .failed => true
  | .cancelled => true
  | _ => false

/-- JS `Date` modelled by its epoch-millisecond value (what `Date.prototype.getTime`
returns and what the `Date` constructor wraps). -/
abbrev JSDate := Int

/-- `TrainingConfig` from `src/types/index.ts`. Numeric fields are JS numbers,
modelled as `ℚ`; `trainingType` is the string `'full' | 'lora' | 'qlora'`. -/
structure TrainingConfig where
  id : String
  model : String
  learningRate : ℚ
  epochs : ℚ
  batchSize : ℚ
  warmupSteps : ℚ
  trainingType : String
  estimatedCost : ℚ
  estimatedTime : String
deriving DecidableEq, Repr

/-- `TrainingProgress` from `src/types/index.ts`. -/
structure TrainingProgress where
  currentStep : ℚ
  totalSteps : ℚ
  currentEpoch : ℚ
  totalEpochs : ℚ
  loss : ℚ
  lossHistory : List ℚ
  eta : String
deriving DecidableEq, Repr

/-- `TrainingRun` from `src/types/index.ts`. Optional TS fields (`progress?`,
`startedAt?`, `completedAt?`, `fineTunedModel?`, `error?`) are `Option`s. -/
structure TrainingRun where
  id : String
  name : String
  config : TrainingConfig
  status : TrainingStatus
  progress : Option TrainingProgress
  datasetId : String
  createdAt : JSDate
  startedAt : Option JSDate
  completedAt : Option JSDate
  fineTunedModel : Option String
  error : Option String
deriving DecidableEq, Repr

/-! ### Cost estimator (`src/lib/api.ts` lines 484-497) -/

/-- `ANYSCALE_LORA_COST_PER_1K = 0.004` (per 1K tokens). -/
def ANYSCALE_LORA_COST_PER_1K : ℚ := 4 / 1000

/-- `ANYSCALE_FULL_COST_PER_1K = 0.012` (per 1K tokens). -/
def ANYSCALE_FULL_COST_PER_1K : ℚ := 12 / 1000

/-- `TOKENS_PER_ROW = 200` (average tokens per training row). -/
def TOKENS_PER_ROW : ℚ := 200

/-- `calculateTrainingCost` from `src/lib/api.ts`:
`totalTokens = datasetSize * TOKENS_PER_ROW * epochs`;
`costPerToken = trainingType === 'lora' ? ANYSCALE_LORA_COST_PER_1K : ANYSCALE_FULL_COST_PER_1K`;
returns `totalTokens / 1000 * costPerToken`. -/
def calculateTrainingCost (datasetSize epochs : ℚ) (trainingType : String) : ℚ :=
  let totalTokens := datasetSize * TOKENS_PER_ROW * epochs
  let costPerToken :=
    if trainingType = "lora" then ANYSCALE_LORA_COST_PER_1K else ANYSCALE_FULL_COST_PER_1K
  totalTokens / 1000 * costPerToken

/-! ### Provider status normalization (`src/lib/api.ts` lines 586-596) -/

/-- The fixed provider-to-local mapping table in `mapAnyscaleStatus`. -/
def anyscaleStatusMap : List (String × TrainingStatus) :=
  [("validating_files", .pending),
   ("queued", .pending),
   ("running", .running),
   ("succeeded", .completed),
   ("failed", .failed),
   ("cancelled", .cancelled)]

/-- The known provider status vocabulary: the keys of `anyscaleStatusMap`. -/
def knownAnyscaleStatuses : List String :=
  anyscaleStatusMap.map Prod.fst

/-- `mapAnyscaleStatus` from `src/lib/api.ts`: table lookup with
`statusMap[status] || 'pending'` as the fallback for unrecognized strings. -/
def mapAnyscaleStatus (status : String) : TrainingStatus :=
  match anyscaleStatusMap.lookup status with
  | some s => s
  | none => .pending

/-! ### Run (de)serialization (`src/hooks/useTraining.ts` lines 38-55)

`serializeRun` JSON-stringifies the run with the three date fields replaced by
their `toISOString()` renderings; `deserializeRun` JSON-parses and rebuilds the
dates with `new Date(...)`. `Date.prototype.toISOString` is an ECMA-262
platform builtin, not repository code: it renders the date's millisecond value
as a fixed-width ISO-8601 string, an injective encoding that the `Date`
constructor parses back to the same millisecond value. The embedding therefore
models the ISO string by the millisecond value it denotes, and models the
JSON-stringify/parse pair (exact on strings, numbers, booleans and plain
objects) by using the structured record itself as the wire form. -/

/-- Model of an ISO-8601 date-time string produced by `Date.prototype.toISOString`,
represented by the millisecond value the string denotes (the rendering is
injective and millisecond-precise). -/
structure IsoDateString where
  millis : Int
deriving DecidableEq, Repr

/-- Model of `d.toISOString()`. -/
def toISOString (d : JSDate) : IsoDateString := ⟨d⟩

/-- Model of `new Date(isoString).getTime()`: ECMA-262 parses an ISO string back
to the millisecond value it denotes. -/
def parseISODate (s : IsoDateString) : JSDate := s.millis

/-- The JSON object written by `serializeRun`: all `TrainingRun` fields, with the
three date fields replaced by ISO strings; an absent optional date serializes as
an absent key (`run.startedAt?.toISOString()` is `undefined`, which
`JSON.stringify` drops). -/
structure SerializedRun where
  id : String
  name : String
  config : TrainingConfig
  status : TrainingStatus
  progress : Option TrainingProgress
  datasetId : String
  createdAt : IsoDateString
  startedAt : Option IsoDateString
  completedAt : Option IsoDateString
  fineTunedModel : Option String
  error : Option String
deriving DecidableEq, Repr

/-- `serializeRun` from `src/hooks/useTraining.ts`:
`JSON.stringify({...run, createdAt: run.createdAt.toISOString(), startedAt:
run.startedAt?.toISOString(), completedAt: run.completedAt?.toISOString()})`. -/
def serializeRun (run : TrainingRun) : SerializedRun :=
  { id := run.id
    name := run.name
    config := run.config
    status := run.status
    progress := run.progress
    datasetId := run.datasetId
    createdAt := toISOString run.createdAt
    startedAt := run.startedAt.map toISOString
    completedAt := run.completedAt.map toISOString
    fineTunedModel := run.fineTunedModel
    error := run.error }

/-- `deserializeRun` from `src/hooks/useTraining.ts`:
`{...data, createdAt: new Date(data.createdAt), startedAt: data.startedAt ?
new Date(data.startedAt) : undefined, completedAt: data.completedAt ?
new Date(data.completedAt) : undefined}`. -/
def deserializeRun (data : SerializedRun) : TrainingRun :=
  { id := data.id
    name := data.name
    config := data.config
    status := data.status
    progress := data.progress
    datasetId := data.datasetId
    createdAt := parseISODate data.createdAt
    startedAt := data.startedAt.map parseISODate
    completedAt := data.completedAt.map parseISODate
    fineTunedModel := data.fineTunedModel
    error := data.error }

/-! ### Remote Job Client result shapes (`src/lib/api.ts`)

Each orchestrator operation awaits one remote call; the call's outcome is an
explicit `Except String R` input of the transition function (`Except.error e`
models the thrown exception whose message string is `e`). -/

/-- Return shape of `api.createTrainingRun` (lines 645-710). -/
structure CreateRunResult where
  id : String
  name : String
  status : TrainingStatus
  datasetId : String
  createdAt : JSDate
deriving DecidableEq, Repr

/-- Raw provider job response consumed by `createTrainingRun`:
`{id, status, created_at}` with `created_at` in seconds. -/
structure AnyscaleJob where
  id : String
  status : String
  created_at : Int
deriving DecidableEq, Repr

/-- Pure response mapping of `api.createTrainingRun` (lines 702-709): the run name
is `Training Run ${date}` (modelled as a parameter), the status is the normalized
provider status, `datasetId` is the uploaded file id, and `createdAt` is
`new Date(job.created_at * 1000)`. -/
def createTrainingRunResult (job : AnyscaleJob) (fileId nameStr : String) : CreateRunResult :=
  { id := job.id
    name := nameStr
    status := mapAnyscaleStatus job.status
    datasetId := fileId
    createdAt := job.created_at * 1000 }

/-- Return shape of `api.getTrainingStatus` (lines 745-798). -/
structure StatusResult where
  id : String
  status : TrainingStatus
  progress : Option TrainingProgress
  fineTunedModel : Option String
  error : Option String
deriving DecidableEq, Repr

/-- Return shape of `api.startTrainingRun` (lines 712-743). -/
structure StartRunResult where
  id : String
  status : TrainingStatus
  startedAt : JSDate
  progress : TrainingProgress
deriving DecidableEq, Repr

/-- The fallback progress object of `api.startTrainingRun` (lines 733-741). -/
def defaultStartProgress : TrainingProgress :=
  { currentStep := 0
    totalSteps := 100
    currentEpoch := 0
    totalEpochs := 3
    loss := 0
    lossHistory := []
    eta := "calculating..." }

/-- Pure part of `api.startTrainingRun` (lines 726-742): Anyscale jobs auto-start,
so the function fetches the current status and returns `{id: runId, status:
'running', startedAt: new Date(), progress: status.progress || default}`. -/
def startTrainingRunResult (runId : String) (st : StatusResult) (now : JSDate) : StartRunResult :=
  { id := runId
    status := .running
    startedAt := now
    progress := st.progress.getD defaultStartProgress }

/-- Return shape of `api.cancelTrainingRun` (lines 811-829). -/
structure CancelRunResult where
  id : String
  status : TrainingStatus
deriving DecidableEq, Repr

/-- Pure part of `api.cancelTrainingRun` (lines 825-828): after the cancel POST
succeeds it returns `{id: runId, status: 'cancelled'}` unconditionally. -/
def cancelTrainingRunResult (runId : String) : CancelRunResult :=
  { id := runId
    status := .cancelled }

/-- Item shape of `api.listTrainingRuns` (lines 831-863). -/
structure ListRunItem where
  id : String
  name : String
  status : TrainingStatus
  createdAt : JSDate
  fineTunedModel : Option String
deriving DecidableEq, Repr

/-- Raw provider job entry consumed by `listTrainingRuns`. -/
structure AnyscaleListedJob where
  id : String
  model : String
  status : String
  created_at : Int
  fine_tuned_model : Option String
deriving DecidableEq, Repr

/-- Pure response mapping of `api.listTrainingRuns` (lines 856-862). -/
def listTrainingRunsResult (jobs : List AnyscaleListedJob) : List ListRunItem :=
  jobs.map fun job =>
    { id := job.id
      name := "Fine-tune " ++ job.model
      status := mapAnyscaleStatus job.status
      createdAt := job.created_at * 1000
      fineTunedModel := job.fine_tuned_model }

/-! ### Orchestrator state (`src/hooks/useTraining.ts`, the `useTraining` hook)

The hook's React state cells become the fields of `OrchState`. `polling` models
whether the status-polling interval of the `useEffect` at lines 122-158 is
currently set. `localStorage` mirrors `runs` and `activeRun` after every
mutation (the persistence `useEffect`s at lines 112-119), so the persisted
state is exactly the `runs`/`activeRun` fields. -/

structure OrchState where
  runs : List TrainingRun
  activeRun : Option TrainingRun
  isCreating : Bool
  isLoading : Bool
  error : Option String
  polling : Bool
deriving DecidableEq, Repr

/-- The dependency array `[activeRun?.id, activeRun?.status]` of the polling
`useEffect` (line 158). -/
def activeDeps (a : Option TrainingRun) : Option (String × TrainingStatus) :=
  a.map fun r => (r.id, r.status)

/-- Whether the polling `useEffect`'s guard `activeRun && activeRun.status === 'running'`
(line 123) holds. -/
def activeIsRunning (a : Option TrainingRun) : Bool :=
  match a with
  | some r => r.status == .running
  | none => false

/-- The polling `useEffect` (lines 122-158): it re-runs exactly when its
dependency array `[activeRun?.id, activeRun?.status]` changed, in which case the
cleanup clears any existing interval and a new interval is set iff the active
run's status is `running`; when the dependencies are unchanged the interval is
left untouched. -/
def syncPolling (old new : OrchState) : OrchState :=
  if activeDeps old.activeRun = activeDeps new.activeRun then new
  else { new with polling := activeIsRunning new.activeRun }

/-- `runs.find(r => r.id === runId)` (lines 187, 207). -/
def findRun (runs : List TrainingRun) (runId : String) : Option TrainingRun :=
  runs.find? fun r => r.id == runId

/-- `createRun` (lines 160-181): sets `isCreating`, clears `error`, awaits
`apiCreateTrainingRun`; on success appends the new run (status and ids from the
result, config from the argument, no optional fields) and returns it; on failure
records the error message and returns `null`; `isCreating` is reset in `finally`. -/
def createRunOp (s : OrchState) (config : TrainingConfig)
    (remote : Except String CreateRunResult) : OrchState × Option TrainingRun :=
  let s0 := { s with isCreating := true, error := none }
  match remote with
  | .ok result =>
      let run : TrainingRun :=
        { id := result.id
          name := result.name
          config := config
          status := result.status
          progress := none
          datasetId := result.datasetId
          createdAt := result.createdAt
          startedAt := none
          completedAt := none
          fineTunedModel := none
          error := none }
      (syncPolling s { s0 with runs := s0.runs ++ [run], isCreating := false }, some run)
  | .error e =>
      (syncPolling s { s0 with error := some e, isCreating := false }, none)

/-- `startRun` (lines 183-201): clears `error`, awaits `apiStartTrainingRun`
unconditionally (no status check), then — only if the run is found locally —
overwrites its status, `startedAt` and `progress` from the result and makes it
the active run; a thrown error is recorded; an unknown `runId` is silently
ignored after the remote call. -/
def startRunOp (s : OrchState) (runId : String)
    (remote : Except String StatusResult) (now : JSDate) : OrchState :=
  let s0 := { s with error := none }
  match remote with
  | .ok st =>
      let result := startTrainingRunResult runId st now
      match findRun s0.runs runId with
      | some existingRun =>
          let updatedRun : TrainingRun :=
            { existingRun with
              status := result.status
              startedAt := some result.startedAt
              progress := some result.progress }
          syncPolling s
            { s0 with
              activeRun := some updatedRun
              runs := s0.runs.map fun r => if r.id == runId then updatedRun else r }
      | none => syncPolling s s0
  | .error e => syncPolling s { s0 with error := some e }

/-- `cancelRun` (lines 203-219): clears `error`, awaits `apiCancelTrainingRun`
unconditionally, then — only if the run is found locally — overwrites its status
with the result's status (always `cancelled`) and makes it the active run; no
other field (in particular `completedAt`) is touched; a thrown error is
recorded; an unknown `runId` is silently ignored after the remote call. -/
def cancelRunOp (s : OrchState) (runId : String)
    (remote : Except String Unit) : OrchState :=
  let s0 := { s with error := none }
  match remote with
  | .ok _ =>
      let result := cancelTrainingRunResult runId
      match findRun s0.runs runId with
      | some existingRun =>
          let updatedRun : TrainingRun := { existingRun with status := result.status }
          syncPolling s
            { s0 with
              activeRun := some updatedRun
              runs := s0.runs.map fun r => if r.id == runId then updatedRun else r }
      | none => syncPolling s s0
  | .error e => syncPolling s { s0 with error := some e }

/-- The placeholder config `refreshRuns` attaches to every listed run (line 229). -/
def emptyRefreshConfig : TrainingConfig :=
  { id := ""
    model := ""
    learningRate := 0
    epochs := 0
    batchSize := 0
    warmupSteps := 0
    trainingType := "lora"
    estimatedCost := 0
    estimatedTime := "" }

/-- `refreshRuns` (lines 221-240): sets `isLoading`, clears `error`, awaits
`apiListTrainingRuns`; on success replaces the whole run set with the listed
runs, each with the placeholder config, empty `datasetId` and no optional
fields; on failure records the error message; `isLoading` is reset in `finally`;
`activeRun` is never touched. -/
def refreshRunsOp (s : OrchState) (remote : Except String (List ListRunItem)) : OrchState :=
  let s0 := { s with isLoading := true, error := none }
  match remote with
  | .ok result =>
      let runsList : List TrainingRun := result.map fun r =>
        { id := r.id
          name := r.name
          config := emptyRefreshConfig
          status := r.status
          progress := none
          datasetId := ""
          createdAt := r.createdAt
          startedAt := none
          completedAt := none
          fineTunedModel := none
          error := none }
      syncPolling s { s0 with runs := runsList, isLoading := false }
  | .error e => syncPolling s { s0 with error := some e, isLoading := false }

/-- One tick of the polling interval (lines 124-149), enabled only while the
interval is set: it awaits `apiGetTrainingStatus(activeRun.id)`; on success it
overwrites the active run's status, progress, `fineTunedModel` and `error` from
the result, sets `completedAt` to now exactly when the fetched status is
`completed` (otherwise leaves it as it was), writes the updated run into the run
set, and clears the interval iff the fetched status is not `running`; a thrown
fetch error is only logged — the state is untouched and the interval keeps
running. -/
def tickOp (s : OrchState) (remote : Except String StatusResult) (now : JSDate) : OrchState :=
  match s.activeRun with
  | none => s
  | some activeRun =>
      match remote with
      | .error _ => s
      | .ok result =>
          let updatedRun : TrainingRun :=
            { activeRun with
              status := result.status
              progress := result.progress
              fineTunedModel := result.fineTunedModel
              completedAt :=
                if result.status == .completed then some now else activeRun.completedAt
              error := result.error }
          syncPolling s
            { s with
              activeRun := some updatedRun
              runs := s.runs.map fun r => if r.id == updatedRun.id then updatedRun else r
              polling := if result.status != .running then false else s.polling }

/-- The orchestrator's initial state: no runs, no active run, no error, no
polling interval. -/
def initState : OrchState :=
  { runs := []
    activeRun := none
    isCreating := false
    isLoading := false
    error := none
    polling := false }

/-- One externally observable orchestrator transition: a completed `createRun`,
`startRun`, `cancelRun` or `refreshRuns` invocation (with an arbitrary remote
outcome), or one polling tick (enabled only while the interval is set). -/
inductive OrchStep : OrchState → OrchState → Prop where
  | create (s : OrchState) (config : TrainingConfig) (remote : Except String CreateRunResult) :
      OrchStep s (createRunOp s config remote).1
  | start (s : OrchState) (runId : String) (remote : Except String StatusResult) (now : JSDate) :
      OrchStep s (startRunOp s runId remote now)
  | cancel (s : OrchState) (runId : String) (remote : Except String Unit) :
      OrchStep s (cancelRunOp s runId remote)
  | refresh (s : OrchState) (remote : Except String (List ListRunItem)) :
      OrchStep s (refreshRunsOp s remote)
  | tick (s : OrchState) (remote : Except String StatusResult) (now : JSDate) :
      s.polling = true → OrchStep s (tickOp s remote now)

/-- States reachable from the initial state by orchestrator transitions. -/
def Reachable (s : OrchState) : Prop :=
  Relation.ReflTransGen OrchStep initState s

/-! ### Concrete fixtures used by counterexamples and witnesses -/

/-- A concrete, fully populated `TrainingConfig`. -/
def sampleConfig : TrainingConfig :=
  { id := "cfg-1"
    model := "meta-llama/Llama-2-7b-chat-hf"
    learningRate := 1 / 5000
    epochs := 3
    batchSize := 8
    warmupSteps := 100
    trainingType := "lora"
    estimatedCost := 6 / 10
    estimatedTime := "~20 minutes" }

/-- A run in status `running` whose completion timestamp is unset. -/
def runningRun : TrainingRun :=
  { id := "r1"
    name := "Training Run 1"
    config := sampleConfig
    status := .running
    progress := none
    datasetId := "ds-1"
    createdAt := 1000
    startedAt := some 2000
    completedAt := none
    fineTunedModel := none
    error := none }

/-- A run in the terminal status `completed`. -/
def completedRun : TrainingRun :=
  { runningRun with id := "r2", status := .completed, completedAt := some 3000 }

/-- A state holding `runningRun` as the active, polled run. -/
def runningState : OrchState :=
  { runs := [runningRun]
    activeRun := some runningRun
    isCreating := false
    isLoading := false
    error := none
    polling := true }

/-- A state holding only the terminal `completedRun`. -/
def completedState : OrchState :=
  { runs := [completedRun]
    activeRun := none
    isCreating := false
    isLoading := false
    error := none
    polling := false }

/-- A state with no runs and a previously surfaced error message. -/
def erroredState : OrchState :=
  { runs := []
    activeRun := none
    isCreating := false
    isLoading := false
    error := some "previous failure"
    polling := false }

/-- A concrete fetched status snapshot. -/
def sampleStatusResult : StatusResult :=
  { id := "r2"
    status := .completed
    progress := none
    fineTunedModel := some "ft-model"
    error := none }

/-- The status snapshot a tick sees when the provider reports the unrecognized
string `warming_up`: `getTrainingStatus` maps it with `mapAnyscaleStatus`. -/
def warmingUpResult : StatusResult :=
  { id := "r1"
    status := mapAnyscaleStatus "warming_up"
    progress := none
    fineTunedModel := none
    error := none }

/-- A concrete successful `createTrainingRun` result. -/
def createResult1 : CreateRunResult :=
  { id := "r1"
    name := "Training Run 1"
    status := .pending
    datasetId := "ds-1"
    createdAt := 1000 }

/-- A fetched status snapshot reporting `running`. -/
def runningStatusResult : StatusResult :=
  { id := "r1"
    status := .running
    progress := none
    fineTunedModel := none
    error := none }

/-- A fetched status snapshot reporting `completed`. -/
def completedStatusResult : StatusResult :=
  { id := "r1"
    status := .completed
    progress := none
    fineTunedModel := some "ft-1"
    error := none }

/-- State after a successful `createRun` from the initial state. -/
def chainState1 : OrchState := (createRunOp initState sampleConfig (.ok createResult1)).1

/-- State after a subsequent successful `startRun "r1"`. -/
def chainState2 : OrchState := startRunOp chainState1 "r1" (.ok runningStatusResult) 2000

/-- State after a subsequent polling tick observing `completed`. -/
def chainState3 : OrchState := tickOp chainState2 (.ok completedStatusResult) 3000

/-- The active run of `chainState3`: terminal, with `completedAt` set by the tick. -/
def chainRun3 : TrainingRun :=
  { id := "r1"
    name := "Training Run 1"
    config := sampleConfig
    status := .completed
    progress := none
    datasetId := "ds-1"
    createdAt := 1000
    startedAt := some 2000
    completedAt := some 3000
    fineTunedModel := some "ft-1"
    error := none }

/-- A concrete provider listing entry for run `r1`. -/
def listItem1 : ListRunItem :=
  { id := "r1"
    name := "Fine-tune meta-llama/Llama-2-7b-chat-hf"
    status := .running
    createdAt := 1000
    fineTunedModel := none }

/-- The local run `refreshRuns` builds from `listItem1`. -/
def refreshedRun1 : TrainingRun :=
  { id := "r1"
    name := "Fine-tune meta-llama/Llama-2-7b-chat-hf"
    config := emptyRefreshConfig
    status := .running
    progress := none
    datasetId := ""
    createdAt := 1000
    startedAt := none
    completedAt := none
    fineTunedModel := none
    error := none }

/-! ### Helper lemmas -/

@[simp]
theorem syncPolling_activeRun (s t : OrchState) :
    (syncPolling s t).activeRun = t.activeRun := by
  unfold syncPolling; split <;> rfl

@[simp]
theorem syncPolling_runs (s t : OrchState) :
    (syncPolling s t).runs = t.runs := by
  unfold syncPolling; split <;> rfl

@[simp]
theorem syncPolling_error (s t : OrchState) :
    (syncPolling s t).error = t.error := by
  unfold syncPolling; split <;> rfl

theorem syncPolling_of_deps_eq (s t : OrchState)
    (h : activeDeps s.activeRun = activeDeps t.activeRun) :
    syncPolling s t = t := by
  unfold syncPolling; rw [if_pos h]

theorem findRun_id {runs : List TrainingRun} {runId : String} {r : TrainingRun}
    (h : findRun runs runId = some r) : r.id = runId := by
  have := List.find?_some h
  simpa [beq_iff_eq] using this

theorem findRun_map_replace {runs : List TrainingRun} {runId : String}
    {u : TrainingRun} (hid : u.id = runId) {ex : TrainingRun}
    (hfound : findRun runs runId = some ex) :
    findRun (runs.map fun r => if r.id == runId then u else r) runId = some u := by
  induction runs with
  | nil => simp [findRun] at hfound
  | cons a l ih =>
      by_cases ha : a.id = runId
      · have h1 : ((if a.id == runId then u else a) : TrainingRun) = u := by simp [ha]
        simp only [findRun, List.map_cons, h1]
        rw [List.find?_cons_of_pos _ (by simp [hid])]
      · have h1 : ((if a.id == runId then u else a) : TrainingRun) = a := by simp [ha]
        simp only [findRun, List.map_cons, h1]
        rw [List.find?_cons_of_neg _ (by simp [ha])]
        simp only [findRun] at ih
        apply ih
        have h2 := hfound
        simp only [findRun] at h2
        rwa [List.find?_cons_of_neg _ (by simp [ha])] at h2

theorem activeIsRunning_eq_of_deps {a b : Option TrainingRun}
    (h : activeDeps a = activeDeps b) : activeIsRunning a = activeIsRunning b := by
  cases a with
  | none =>
      cases b with
      | none => rfl
      | some rb => simp [activeDeps] at h
  | some ra =>
      cases b with
      | none => simp [activeDeps] at h
      | some rb =>
          have h2 : (ra.id, ra.status) = (rb.id, rb.status) := by
            simpa [activeDeps] using h
          have h3 : ra.status = rb.status := congrArg Prod.snd h2
          simp [activeIsRunning, h3]

/-- The polling-interval invariant: the interval is set exactly when the active
run is in status `running`. -/
def PollInv (s : OrchState) : Prop :=
  s.polling = activeIsRunning s.activeRun

theorem pollInv_syncPolling {s t : OrchState}
    (h : activeDeps s.activeRun = activeDeps t.activeRun → PollInv t) :
    PollInv (syncPolling s t) := by
  unfold syncPolling
  split
  · exact h (by assumption)
  · simp [PollInv]

theorem pollInv_createRunOp {s : OrchState} (hs : PollInv s)
    (config : TrainingConfig) (remote : Except String CreateRunResult) :
    PollInv (createRunOp s config remote).1 := by
  unfold createRunOp
  cases remote with
  | ok result => exact pollInv_syncPolling fun _ => hs
  | error e => exact pollInv_syncPolling fun _ => hs

theorem pollInv_startRunOp {s : OrchState} (hs : PollInv s)
    (runId : String) (remote : Except String StatusResult) (now : JSDate) :
    PollInv (startRunOp s runId remote now) := by
  unfold startRunOp
  cases remote with
  | ok st =>
      cases hfind : findRun ({ s with error := none } : OrchState).runs runId with
      | some existingRun =>
          simp only [hfind]
          refine pollInv_syncPolling fun hd => ?_
          unfold PollInv
          show s.polling = _
          rw [hs]
          exact activeIsRunning_eq_of_deps hd
      | none =>
          simp only [hfind]
          exact pollInv_syncPolling fun _ => hs
  | error e => exact pollInv_syncPolling fun _ => hs

theorem pollInv_cancelRunOp {s : OrchState} (hs : PollInv s)
    (runId : String) (remote : Except String Unit) :
    PollInv (cancelRunOp s runId remote) := by
  unfold cancelRunOp
  cases remote with
  | ok u =>
      cases hfind : findRun ({ s with error := none } : OrchState).runs runId with
      | some existingRun =>
          simp only [hfind]
          refine pollInv_syncPolling fun hd => ?_
          unfold PollInv
          show s.polling = _
          rw [hs]
          exact activeIsRunning_eq_of_deps hd
      | none =>
          simp only [hfind]
          exact pollInv_syncPolling fun _ => hs
  | error e => exact pollInv_syncPolling fun _ => hs

theorem pollInv_refreshRunsOp {s : OrchState} (hs : PollInv s)
    (remote : Except String (List ListRunItem)) :
    PollInv (refreshRunsOp s remote) := by
  unfold refreshRunsOp
  cases remote with
  | ok result => exact pollInv_syncPolling fun _ => hs
  | error e => exact pollInv_syncPolling fun _ => hs

theorem pollInv_tickOp {s : OrchState} (hs : PollInv s)
    (remote : Except String StatusResult) (now : JSDate) :
    PollInv (tickOp s remote now) := by
  unfold tickOp
  cases hact : s.activeRun with
  | none => simpa [hact] using hs
  | some activeRun =>
      cases remote with
      | error e => simpa [hact] using hs
      | ok result =>
          simp only [hact]
          refine pollInv_syncPolling fun hd => ?_
          rw [hact] at hd
          have h2 : (activeRun.id, activeRun.status)
              = (activeRun.id, result.status) := by
            simpa [activeDeps] using hd
          have hstat : activeRun.status = result.status := congrArg Prod.snd h2
          have hpoll : s.polling = (activeRun.status == TrainingStatus.running) := by
            rw [hs, hact]; rfl
          unfold PollInv
          by_cases hr : result.status = TrainingStatus.running
          · simp [activeIsRunning, hr, hpoll, hstat]
          · simp [activeIsRunning, bne_iff_ne, beq_eq_false_iff_ne, hr]

theorem pollInv_step {s t : OrchState} (hs : PollInv s) (h : OrchStep s t) : PollInv t := by
  cases h with
  | create config remote => exact pollInv_createRunOp hs config remote
  | start runId remote now => exact pollInv_startRunOp hs runId remote now
  | cancel runId remote => exact pollInv_cancelRunOp hs runId remote
  | refresh remote => exact pollInv_refreshRunsOp hs remote
  | tick remote now hp => exact pollInv_tickOp hs remote now

theorem reachable_pollInv {s : OrchState} (h : Reachable s) : PollInv s := by
  induction h with
  | refl => rfl
  | tail hab hbc ih => exact pollInv_step ih hbc

/-! ### Claim theorems -/

/-- Claim C3: `mapAnyscaleStatus` returns one of the five local statuses (its
return type), and every string outside the known provider vocabulary maps to
`pending` — in particular never to the terminal statuses completed, failed or
cancelled. -/
theorem C3_unknown_status_maps_to_pending (raw : String)
    (h : raw ∉ knownAnyscaleStatuses) :
    mapAnyscaleStatus raw = TrainingStatus.pending
      ∧ (mapAnyscaleStatus raw).isTerminal = false := by
  simp only [knownAnyscaleStatuses, anyscaleStatusMap, List.map, List.mem_cons,
    List.not_mem_nil, or_false, not_or] at h
  obtain ⟨h1, h2, h3, h4, h5, h6⟩ := h
  have e1 : (raw == "validating_files") = false := beq_eq_false_iff_ne.mpr h1
  have e2 : (raw == "queued") = false := beq_eq_false_iff_ne.mpr h2
  have e3 : (raw == "running") = false := beq_eq_false_iff_ne.mpr h3
  have e4 : (raw == "succeeded") = false := beq_eq_false_iff_ne.mpr h4
  have e5 : (raw == "failed") = false := beq_eq_false_iff_ne.mpr h5
  have e6 : (raw == "cancelled") = false := beq_eq_false_iff_ne.mpr h6
  have : mapAnyscaleStatus raw = TrainingStatus.pending := by
    simp [mapAnyscaleStatus, anyscaleStatusMap, List.lookup, e1, e2, e3, e4, e5, e6]
  exact ⟨this, by rw [this]; rfl⟩

/-- Witness for C3 at the unrecognized provider string `warming_up`. -/
theorem C3_unknown_status_maps_to_pending_witness :
    ("warming_up" ∉ knownAnyscaleStatuses)
      ∧ mapAnyscaleStatus "warming_up" = TrainingStatus.pending
      ∧ (mapAnyscaleStatus "warming_up").isTerminal = false := by
  refine ⟨by decide, ?_, ?_⟩
  · exact (C3_unknown_status_maps_to_pending "warming_up" (by decide)).1
  · exact (C3_unknown_status_maps_to_pending "warming_up" (by decide)).2

/-- Claim C6: for all positive datasetSize and epochs, `calculateTrainingCost`
computes datasetSize × 200 × epochs / 1000 × rate, with rate 0.004 for the
lightweight-adapter (`lora`) tier and 0.012 for the `full` tier; in particular
`calculateTrainingCost 250 3 "lora" = 0.60`. -/
theorem C6_cost_formula (datasetSize epochs : ℚ)
    (hd : 0 < datasetSize) (he : 0 < epochs) :
    calculateTrainingCost datasetSize epochs "lora"
        = datasetSize * 200 * epochs / 1000 * (4 / 1000)
      ∧ calculateTrainingCost datasetSize epochs "full"
        = datasetSize * 200 * epochs / 1000 * (12 / 1000)
      ∧ calculateTrainingCost 250 3 "lora" = 6 / 10 := by
  refine ⟨?_, ?_, ?_⟩
  · simp [calculateTrainingCost, TOKENS_PER_ROW, ANYSCALE_LORA_COST_PER_1K]
  · rw [calculateTrainingCost, if_neg (by decide)]
    simp [TOKENS_PER_ROW, ANYSCALE_FULL_COST_PER_1K]
  · rw [calculateTrainingCost, if_pos rfl]
    norm_num [TOKENS_PER_ROW, ANYSCALE_LORA_COST_PER_1K]

/-- Witness for C6 at datasetSize 250, epochs 3. -/
theorem C6_cost_formula_witness :
    (0:ℚ) < 250 ∧ (0:ℚ) < 3 ∧ calculateTrainingCost 250 3 "lora" = 6 / 10 :=
  ⟨by norm_num, by norm_num, (C6_cost_formula 250 3 (by norm_num) (by norm_num)).2.2⟩

/-- Counterexample to claim C7: at datasetSize 0 the function does not fail with
an InvalidArgument condition — it is a total function and returns 0. -/
theorem C7_counterexample : calculateTrainingCost 0 3 "lora" = 0 := by
  rw [calculateTrainingCost, if_pos rfl]
  norm_num

/-- Claim C7 as amended: `calculateTrainingCost` is total and never fails for any
input; it always returns the formula value, which is 0 when datasetSize or
epochs is 0 (and is negative, not an error, for negative inputs). -/
theorem C7_amended_total_formula (datasetSize epochs : ℚ) (trainingType : String) :
    calculateTrainingCost datasetSize epochs trainingType
        = datasetSize * 200 * epochs / 1000
            * (if trainingType = "lora" then 4 / 1000 else 12 / 1000)
      ∧ calculateTrainingCost 0 epochs trainingType = 0
      ∧ calculateTrainingCost datasetSize 0 trainingType = 0 := by
  refine ⟨?_, ?_, ?_⟩ <;>
    · rw [calculateTrainingCost]
      split <;> simp [TOKENS_PER_ROW, ANYSCALE_LORA_COST_PER_1K, ANYSCALE_FULL_COST_PER_1K]

/-- Claim C8: deserializing a serialized `TrainingRun` yields a run equal in
every field to the original, for every combination of present/absent optional
fields; the timestamps round-trip exactly (millisecond precision, which
preserves ordering). -/
theorem C8_serialization_round_trip (run : TrainingRun) :
    deserializeRun (serializeRun run) = run := by
  cases run with
  | mk id name config status progress datasetId createdAt startedAt completedAt ftm err =>
      cases startedAt <;> cases completedAt <;> rfl

/-- Claim C4: when the remote call fails, each of `createRun`, `startRun` and
`cancelRun` surfaces the error (the orchestrator's error field is set to the
thrown message) and leaves the persisted state — the run set and the active
run — unchanged; in particular a failed `createRun` persists no run and returns
`null`. -/
theorem C4_remote_failure_preserves_state (s : OrchState) (config : TrainingConfig)
    (runId : String) (now : JSDate) (e : String) :
    ((createRunOp s config (.error e)).1.runs = s.runs
      ∧ (createRunOp s config (.error e)).1.activeRun = s.activeRun
      ∧ (createRunOp s config (.error e)).1.error = some e
      ∧ (createRunOp s config (.error e)).2 = none)
    ∧ ((startRunOp s runId (.error e) now).runs = s.runs
      ∧ (startRunOp s runId (.error e) now).activeRun = s.activeRun
      ∧ (startRunOp s runId (.error e) now).error = some e)
    ∧ ((cancelRunOp s runId (.error e)).runs = s.runs
      ∧ (cancelRunOp s runId (.error e)).activeRun = s.activeRun
      ∧ (cancelRunOp s runId (.error e)).error = some e) := by
  unfold createRunOp startRunOp cancelRunOp
  simp

/-- Counterexample to claim C1: a successful `cancelRun` on a running run whose
completion timestamp is unset yields status `cancelled` with the completion
timestamp still `null` — a terminal run without a completion timestamp, so
neither the stated exactly-one invariant nor the non-null-timestamp scenario
holds. -/
theorem C1_counterexample :
    runningRun.status = TrainingStatus.running
      ∧ runningRun.completedAt = none
      ∧ ((cancelRunOp runningState "r1" (.ok ())).runs.map
          (fun r => (r.status, r.completedAt)) = [(TrainingStatus.cancelled, none)])
      ∧ ((cancelRunOp runningState "r1" (.ok ())).activeRun.map
          (fun r => (r.status, r.completedAt)) = some (TrainingStatus.cancelled, none)) := by
  refine ⟨rfl, rfl, rfl, rfl⟩

/-- Claim C1 as amended: a successful `cancelRun` on a run found locally sets
exactly the status field to `cancelled` and leaves `completedAt` (and every
other field) unchanged — so a cancelled run's completion timestamp stays `null`
unless a tick had set it; and a polling tick sets `completedAt` (to the tick
time) exactly when the fetched status is `completed`, leaving it unchanged
otherwise. The claimed equivalence of {completedAt set} and {status terminal}
does not hold. -/
theorem C1_amended_cancel_leaves_completedAt (s : OrchState) (runId : String)
    (existing : TrainingRun) (hfound : findRun s.runs runId = some existing) :
    ((cancelRunOp s runId (.ok ())).activeRun
        = some { existing with status := TrainingStatus.cancelled }
      ∧ findRun (cancelRunOp s runId (.ok ())).runs runId
        = some { existing with status := TrainingStatus.cancelled }
      ∧ ({ existing with status := TrainingStatus.cancelled } : TrainingRun).completedAt
        = existing.completedAt)
    ∧ (∀ (res : StatusResult) (now : JSDate) (a : TrainingRun),
        s.activeRun = some a → res.status ≠ TrainingStatus.completed →
        (tickOp s (.ok res) now).activeRun.map TrainingRun.completedAt
          = some a.completedAt)
    ∧ (∀ (res : StatusResult) (now : JSDate) (a : TrainingRun),
        s.activeRun = some a → res.status = TrainingStatus.completed →
        (tickOp s (.ok res) now).activeRun.map TrainingRun.completedAt
          = some (some now)) := by
  have hid0 : existing.id = runId := findRun_id hfound
  have hid : ({ existing with status := TrainingStatus.cancelled } : TrainingRun).id = runId :=
    hid0
  have hm : findRun ({ s with error := none } : OrchState).runs runId = some existing := hfound
  refine ⟨⟨?_, ?_, rfl⟩, ?_, ?_⟩
  · unfold cancelRunOp
    simp only [hm]
    simp [cancelTrainingRunResult]
  · unfold cancelRunOp
    simp only [hm, syncPolling_runs]
    have h3 := @findRun_map_replace s.runs runId
      ({ existing with status := TrainingStatus.cancelled }) hid existing hfound
    simpa [cancelTrainingRunResult] using h3
  · intro res now a ha hne
    unfold tickOp
    simp only [ha]
    simp [syncPolling_activeRun, beq_eq_false_iff_ne.mpr hne]
  · intro res now a ha heq
    unfold tickOp
    simp only [ha]
    simp [syncPolling_activeRun, heq]

/-- Witness for C1 at the concrete running run `runningRun`. -/
theorem C1_amended_cancel_leaves_completedAt_witness :
    findRun runningState.runs "r1" = some runningRun
      ∧ (cancelRunOp runningState "r1" (.ok ())).activeRun
          = some { runningRun with status := TrainingStatus.cancelled } :=
  ⟨rfl, (C1_amended_cancel_leaves_completedAt runningState "r1" runningRun rfl).1.1⟩

/-- Counterexample to claim C2: `startRun` on the run `r2`, whose status is
`completed` (not `pending`), does not return an invalid-transition error and is
not a no-op — on remote success it silently flips the run to `running` and
leaves no error surfaced. -/
theorem C2_counterexample :
    completedRun.status = TrainingStatus.completed
      ∧ ((startRunOp completedState "r2" (.ok sampleStatusResult) 5000).runs.map
          (fun r => r.status) = [TrainingStatus.running])
      ∧ (startRunOp completedState "r2" (.ok sampleStatusResult) 5000).error = none := by
  refine ⟨rfl, rfl, rfl⟩

/-- Claim C2 as amended: `startRun` performs no transition validation. It always
consumes the remote call (whose outcome determines the result even for
non-pending runs: a remote failure surfaces its error), and on remote success it
sets the found run's status to `running`, its start timestamp to now, and its
progress from the fetched status, whatever the run's previous status was, with
no error surfaced. -/
theorem C2_amended_no_transition_guard (s : OrchState) (runId : String)
    (st : StatusResult) (now : JSDate) (existing : TrainingRun)
    (hfound : findRun s.runs runId = some existing) :
    ((startRunOp s runId (.ok st) now).activeRun
        = some { existing with
                 status := TrainingStatus.running
                 startedAt := some now
                 progress := some (st.progress.getD defaultStartProgress) }
      ∧ findRun (startRunOp s runId (.ok st) now).runs runId
        = some { existing with
                 status := TrainingStatus.running
                 startedAt := some now
                 progress := some (st.progress.getD defaultStartProgress) }
      ∧ (startRunOp s runId (.ok st) now).error = none)
    ∧ (∀ e : String, (startRunOp s runId (.error e) now).error = some e
        ∧ (startRunOp s runId (.error e) now).runs = s.runs) := by
  have hid0 : existing.id = runId := findRun_id hfound
  have hid : ({ existing with
                status := TrainingStatus.running
                startedAt := some now
                progress := some (st.progress.getD defaultStartProgress) } : TrainingRun).id
      = runId := hid0
  have hm : findRun ({ s with error := none } : OrchState).runs runId = some existing := hfound
  refine ⟨⟨?_, ?_, ?_⟩, ?_⟩
  · unfold startRunOp
    simp only [hm]
    simp [startTrainingRunResult]
  · unfold startRunOp
    simp only [hm, syncPolling_runs]
    have h3 := @findRun_map_replace s.runs runId
      ({ existing with
         status := TrainingStatus.running
         startedAt := some now
         progress := some (st.progress.getD defaultStartProgress) }) hid existing hfound
    simpa [startTrainingRunResult] using h3
  · unfold startRunOp
    simp only [hm]
    simp
  · intro e
    unfold startRunOp
    simp

/-- Witness for C2 at the concrete completed run `completedRun`. -/
theorem C2_amended_no_transition_guard_witness :
    findRun completedState.runs "r2" = some completedRun
      ∧ (startRunOp completedState "r2" (.ok sampleStatusResult) 5000).activeRun
          = some { completedRun with
                   status := TrainingStatus.running
                   startedAt := some 5000
                   progress := some (sampleStatusResult.progress.getD defaultStartProgress) } :=
  ⟨rfl, (C2_amended_no_transition_guard completedState "r2" sampleStatusResult 5000
      completedRun rfl).1.1⟩

/-- Counterexample to claim C5: a tick whose fetched status is `pending` (here
produced by the unrecognized provider string `warming_up`) stops the polling
loop even though the status is not terminal and no `cancelRun` occurred. -/
theorem C5_counterexample :
    runningState.polling = true
      ∧ warmingUpResult.status = TrainingStatus.pending
      ∧ TrainingStatus.pending.isTerminal = false
      ∧ (tickOp runningState (.ok warmingUpResult) 5000).polling = false
      ∧ (tickOp runningState (.ok warmingUpResult) 5000).activeRun.map
          (fun r => r.status) = some TrainingStatus.pending := by
  refine ⟨rfl, rfl, rfl, rfl, rfl⟩

theorem syncPolling_polling_eq (s t : OrchState) :
    (syncPolling s t).polling
      = if activeDeps s.activeRun = activeDeps t.activeRun then t.polling
        else activeIsRunning t.activeRun := by
  unfold syncPolling
  split <;> rename_i h <;> simp [h]

theorem tickOp_ok_polling (s : OrchState) (res : StatusResult) (now : JSDate)
    (a : TrainingRun) (ha : s.activeRun = some a) (hpoll : s.polling = true) :
    (tickOp s (.ok res) now).polling = (res.status == TrainingStatus.running) := by
  unfold tickOp
  simp only [ha]
  rw [syncPolling_polling_eq]
  simp only [ha, activeDeps, Option.map_some']
  split
  · by_cases hr : res.status = TrainingStatus.running
    · simp [hr, hpoll]
    · simp [bne_iff_ne, beq_eq_false_iff_ne, hr]
  · simp [activeIsRunning]

/-- Claim C5 as amended: in every reachable state, once the active run's status
is terminal the polling loop has stopped (no tick is enabled); a transient fetch
error leaves the state — including the loop and the run's status — completely
unchanged; and a successful tick keeps the loop running exactly when the
fetched status is `running`, so the loop ends on any non-running fetched status
(terminal or `pending`), not only on terminal ones. -/
theorem C5_amended_polling :
    (∀ s : OrchState, Reachable s → ∀ a : TrainingRun, s.activeRun = some a →
        a.status.isTerminal = true → s.polling = false)
      ∧ (∀ (s : OrchState) (e : String) (now : JSDate), tickOp s (.error e) now = s)
      ∧ (∀ (s : OrchState) (res : StatusResult) (now : JSDate) (a : TrainingRun),
          s.activeRun = some a → s.polling = true →
          (tickOp s (.ok res) now).polling = (res.status == TrainingStatus.running)) := by
  refine ⟨?_, ?_, ?_⟩
  · intro s hreach a ha hterm
    have hinv := reachable_pollInv hreach
    rw [hinv, ha]
    cases hstat : a.status <;>
      simp_all [activeIsRunning, TrainingStatus.isTerminal]
  · intro s e now
    unfold tickOp
    cases s.activeRun <;> rfl
  · intro s res now a ha hpoll
    exact tickOp_ok_polling s res now a ha hpoll

/-- Witness for C5: the reachable state `chainState3` (create, start, then a tick
observing `completed`) has a terminal active run and a stopped loop; a concrete
error tick is a no-op; a concrete pending tick stops the loop. -/
theorem C5_amended_polling_witness :
    chainState3.activeRun = some chainRun3
      ∧ chainRun3.status.isTerminal = true
      ∧ chainState3.polling = false
      ∧ tickOp runningState (.error "network failure") 5000 = runningState
      ∧ (tickOp runningState (.ok warmingUpResult) 5000).polling
          = (warmingUpResult.status == TrainingStatus.running) := by
  have step1 : OrchStep initState chainState1 :=
    OrchStep.create initState sampleConfig (.ok createResult1)
  have step2 : OrchStep chainState1 chainState2 :=
    OrchStep.start chainState1 "r1" (.ok runningStatusResult) 2000
  have step3 : OrchStep chainState2 chainState3 :=
    OrchStep.tick chainState2 (.ok completedStatusResult) 3000 rfl
  have hreach : Reachable chainState3 :=
    Relation.ReflTransGen.tail
      (Relation.ReflTransGen.tail
        (Relation.ReflTransGen.tail Relation.ReflTransGen.refl step1) step2) step3
  refine ⟨rfl, rfl, ?_, ?_, ?_⟩
  · exact C5_amended_polling.1 chainState3 hreach chainRun3 rfl rfl
  · exact C5_amended_polling.2.1 runningState "network failure" 5000
  · exact C5_amended_polling.2.2 runningState warmingUpResult 5000 runningRun rfl rfl

/-- Counterexample to claim C9: run `r1` is present locally with a real config
and dataset reference and is reported by the provider, yet after `refreshRuns`
its config has been replaced by the placeholder (empty model) and its dataset
reference by the empty string. -/
theorem C9_counterexample :
    findRun runningState.runs "r1" = some runningRun
      ∧ runningRun.config.model = "meta-llama/Llama-2-7b-chat-hf"
      ∧ runningRun.datasetId = "ds-1"
      ∧ ((refreshRunsOp runningState (.ok [listItem1])).runs.map
          (fun r => (r.id, r.config.model, r.datasetId)) = [("r1", "", "")]) := by
  refine ⟨rfl, rfl, rfl, rfl⟩

/-- Claim C9 as amended: a successful `refreshRuns` replaces the whole run set
with the server snapshot, attaching to every run the placeholder config (empty
model, zero hyperparameters) and an empty dataset reference — the configs and
dataset references of previously held local runs are not preserved. -/
theorem C9_amended_refresh_overwrites (s : OrchState) (items : List ListRunItem)
    (r : TrainingRun) (hr : r ∈ (refreshRunsOp s (.ok items)).runs) :
    r.config = emptyRefreshConfig ∧ r.datasetId = "" := by
  unfold refreshRunsOp at hr
  simp only [syncPolling_runs] at hr
  rw [List.mem_map] at hr
  obtain ⟨i, hi, rfl⟩ := hr
  exact ⟨rfl, rfl⟩

/-- Witness for C9 at the concrete provider listing `[listItem1]`. -/
theorem C9_amended_refresh_overwrites_witness :
    refreshedRun1 ∈ (refreshRunsOp runningState (.ok [listItem1])).runs
      ∧ refreshedRun1.config = emptyRefreshConfig
      ∧ refreshedRun1.datasetId = "" := by
  have hmem : refreshedRun1 ∈ (refreshRunsOp runningState (.ok [listItem1])).runs := by
    decide
  have h := C9_amended_refresh_overwrites runningState [listItem1] refreshedRun1 hmem
  exact ⟨hmem, h.1, h.2⟩

/-- Counterexample to claim C10: with a run id absent from the local set and a
previously surfaced error, a successful `startRun` does change local state — it
clears the displayed error (while indeed reporting no error and leaving the run
set unchanged). -/
theorem C10_counterexample :
    findRun erroredState.runs "ghost" = none
      ∧ erroredState.error = some "previous failure"
      ∧ startRunOp erroredState "ghost" (.ok sampleStatusResult) 5000 ≠ erroredState
      ∧ (startRunOp erroredState "ghost" (.ok sampleStatusResult) 5000).error = none
      ∧ (startRunOp erroredState "ghost" (.ok sampleStatusResult) 5000).runs
          = erroredState.runs := by
  refine ⟨rfl, rfl, by decide, rfl, rfl⟩

/-- Claim C10 as amended: for a run id absent from the local set, `startRun` and
`cancelRun` still consume the remote call, and on remote success they complete
with no error reported and with the run set, active run and polling state
unchanged; the only local-state change is that any previously displayed error is
cleared (which happens on every invocation). -/
theorem C10_amended_unknown_run (s : OrchState) (runId : String)
    (st : StatusResult) (now : JSDate)
    (hmissing : findRun s.runs runId = none) :
    ((startRunOp s runId (.ok st) now).runs = s.runs
      ∧ (startRunOp s runId (.ok st) now).activeRun = s.activeRun
      ∧ (startRunOp s runId (.ok st) now).polling = s.polling
      ∧ (startRunOp s runId (.ok st) now).error = none)
    ∧ ((cancelRunOp s runId (.ok ())).runs = s.runs
      ∧ (cancelRunOp s runId (.ok ())).activeRun = s.activeRun
      ∧ (cancelRunOp s runId (.ok ())).polling = s.polling
      ∧ (cancelRunOp s runId (.ok ())).error = none) := by
  have hm : findRun ({ s with error := none } : OrchState).runs runId = none := hmissing
  unfold startRunOp cancelRunOp
  simp only [hm]
  rw [syncPolling_of_deps_eq s ({ s with error := none }) rfl]
  exact ⟨⟨rfl, rfl, rfl, rfl⟩, ⟨rfl, rfl, rfl, rfl⟩⟩

/-- Witness for C10 at the concrete state `erroredState` and unknown id `ghost`. -/
theorem C10_amended_unknown_run_witness :
    findRun erroredState.runs "ghost" = none
      ∧ (startRunOp erroredState "ghost" (.ok sampleStatusResult) 5000).error = none
      ∧ (cancelRunOp erroredState "ghost" (.ok ())).runs = erroredState.runs := by
  have h := C10_amended_unknown_run erroredState "ghost" sampleStatusResult 5000 rfl
  exact ⟨rfl, h.1.2.2.2, h.2.1⟩
